import Mathlib

/-!
Verification of the shader preamble synthesizer and compilation orchestrator
of the `graphics` package (file with `shaderSuffix` and `CompileShader`).

The embedding has two layers:

* a textual layer translating the string-building code byte for byte
  (`headerText`, `slotAccessorsText`, `posText`, `unsafeAtText`, `atText`,
  `footerText`, `shaderSuffix`, `CompileShader`); braces and apostrophes in
  the generated shader text are written with `\x7b`, `\x7d` and `\x27`
  escape codes;
* a semantic layer giving the arithmetic meaning, over rational components,
  of the emitted per-slot helper functions (`posPixelsSem`, `posTexelsSem`,
  `imageSrcAtPixelsSem`, `imageSrcAtTexelsSem`), with the GLSL-style
  `step` builtin used by the emitted bounds checks.

The external collaborators (the compiler-directive reader and the shader
compiler, both from packages whose source is not part of this slice) are
parameters of `CompileShader`, per the collaborator contracts of the spec.
-/

namespace graphics

/-- Modelled from the spec: `shaderir.Unit`, the coordinate unit mode.  The
source of the `shaderir` package is not in this slice; the spec describes the
type as the enumeration Pixels, Texels, and the orchestrator source switches
on it with a default branch formatting the value as a decimal integer, so the
underlying Go type is an integer with two recognized named values.  The
`Unknown` constructor carries any other integer value. -/
inductive shaderir.Unit where
  | Pixels
  | Texels
  | Unknown (n : Int)
deriving DecidableEq

/-- Error text of the default branch of the unit switch in `shaderSuffix`
(source line 116): `fmt.Errorf("graphics: unexpected unit: %d", unit)`. -/
def unexpectedUnitMsg (n : Int) : String :=
  "graphics: unexpected unit: " ++ toString n

/-- Header of the synthesized suffix: the first `fmt.Sprintf` of
`shaderSuffix` (source lines 26 to 88), with the image slot count spliced for
each `%[1]d` placeholder. -/
def headerText (shaderImageCount : Nat) : String :=
  "\nvar __imageDstTextureSize vec2\n\n// imageSrcTextureSize returns the destination image\x27s texture size in pixels.\nfunc imageDstTextureSize() vec2 \x7b\n\treturn __imageDstTextureSize\n\x7d\n\nvar __imageSrcTextureSizes [" ++
  toString shaderImageCount ++
  "]vec2\n\n// imageSrcTextureSize returns the 0th source image\x27s texture size in pixels.\n// As an image is a part of internal texture, the texture is usually bigger than the image.\n// The texture\x27s size is useful when you want to calculate pixels from texels in the texel mode.\nfunc imageSrcTextureSize() vec2 \x7b\n\treturn __imageSrcTextureSizes[0]\n\x7d\n\n// The unit is the source texture\x27s pixel or texel.\nvar __imageDstRegionOrigin vec2\n\n// The unit is the source texture\x27s pixel or texel.\nvar __imageDstRegionSize vec2\n\n// imageDstRegionOnTexture returns the destination image\x27s region (the origin and the size) on its texture.\n// The unit is the source texture\x27s pixel or texel.\n//\n// As an image is a part of internal texture, the image can be located at an arbitrary position on the texture.\n//\n// Deprecated: as of v2.6. Use imageDstOrigin or imageDstSize.\nfunc imageDstRegionOnTexture() (vec2, vec2) \x7b\n\treturn __imageDstRegionOrigin, __imageDstRegionSize\n\x7d\n\n// imageDstRegionOnTexture returns the destination image\x27s origin on its texture.\n// The unit is the source texture\x27s pixel or texel.\n//\n// As an image is a part of internal texture, the image can be located at an arbitrary position on the texture.\nfunc imageDstOrigin() vec2 \x7b\n\treturn __imageDstRegionOrigin\n\x7d\n\n// imageDstRegionOnTexture returns the destination image\x27s size.\n// The unit is the source texture\x27s pixel or texel.\nfunc imageDstSize() vec2 \x7b\n\treturn __imageDstRegionSize\n\x7d\n\n// The unit is the source texture\x27s pixel or texel.\nvar __imageSrcRegionOrigins [" ++
  toString shaderImageCount ++
  "]vec2\n\n// The unit is the source texture\x27s pixel or texel.\nvar __imageSrcRegionSizes [" ++
  toString shaderImageCount ++
  "]vec2\n\n// imageSrcRegionOnTexture returns the 0th source image\x27s region (the origin and the size) on its texture.\n// The unit is the source texture\x27s pixel or texel.\n//\n// As an image is a part of internal texture, the image can be located at an arbitrary position on the texture.\n//\n// Deprecated: as of v2.6. Use imageSrc0Origin or imageSrc0Size instead.\nfunc imageSrcRegionOnTexture() (vec2, vec2) \x7b\n\treturn __imageSrcRegionOrigins[0], __imageSrcRegionSizes[0]\n\x7d\n"

/-- Per-slot origin and size accessors: the `fmt.Sprintf` at source lines 91
to 105, with the slot index spliced for each `%[1]d` placeholder. -/
def slotAccessorsText (i : Nat) : String :=
  "\n// imageSrc" ++ toString i ++
  "Origin returns the source image\x27s region origin on its texture.\n// The unit is the source texture\x27s pixel or texel.\n//\n// As an image is a part of internal texture, the image can be located at an arbitrary position on the texture.\nfunc imageSrc" ++
  toString i ++
  "Origin() vec2 \x7b\n\treturn __imageSrcRegionOrigins[" ++ toString i ++
  "]\n\x7d\n\n// imageSrc" ++ toString i ++
  "Size returns the source image\x27s size.\n// The unit is the source texture\x27s pixel or texel.\nfunc imageSrc" ++
  toString i ++
  "Size() vec2 \x7b\n\treturn __imageSrcRegionSizes[" ++ toString i ++
  "]\n\x7d\n"

/-- The queried-position expression spliced into the per-slot fetch
functions: source lines 107 to 118.  For slot 0 it is the raw `pos`; for
slots `i >= 1` it is the remapping expression selected by the unit switch,
whose default branch aborts synthesis with the unexpected-unit error. -/
def posText (unit : shaderir.Unit) (i : Nat) : Except String String :=
  if 1 ≤ i then
    match unit with
    | .Pixels =>
        .ok ("pos - __imageSrcRegionOrigins[0] + __imageSrcRegionOrigins[" ++
          toString i ++ "]")
    | .Texels =>
        .ok ("((pos - __imageSrcRegionOrigins[0]) * __imageSrcTextureSizes[0]) / __imageSrcTextureSizes[" ++
          toString i ++ "] + __imageSrcRegionOrigins[" ++ toString i ++ "]")
    | .Unknown n => .error (unexpectedUnitMsg n)
  else
    .ok ("pos")

/-- The unbounded fetch function for slot `i`: the `fmt.Sprintf` at source
lines 120 to 125, with the slot index for `%[1]d` and the position expression
for `%[2]s`. -/
def unsafeAtText (i : Nat) (pos : String) : String :=
  "\nfunc imageSrc" ++ toString i ++
  "UnsafeAt(pos vec2) vec4 \x7b\n\t// pos is the position in positions of the source texture (= 0th image\x27s texture).\n\treturn __texelAt(__t" ++
  toString i ++ ", " ++ pos ++ ")\n\x7d\n"

/-- The bounds-checked fetch function for slot `i`: the unit switch at
source lines 126 to 147.  The Pixels variant checks against
`__imageSrcRegionSizes[i]`; the Texels variant checks against
`__imageSrcRegionSizes[0]`.  The switch has no default branch, so an
unrecognized unit emits nothing here. -/
def atText (unit : shaderir.Unit) (i : Nat) (pos : String) : String :=
  match unit with
  | .Pixels =>
      "\nfunc imageSrc" ++ toString i ++
      "At(pos vec2) vec4 \x7b\n\t// pos is the position of the source texture (= 0th image\x27s texture).\n\t// If pos is in the region, the result is (1, 1). Otherwise, either element is 0.\n\tin := step(__imageSrcRegionOrigins[0], pos) - step(__imageSrcRegionOrigins[0] + __imageSrcRegionSizes[" ++
      toString i ++ "], pos)\n\treturn __texelAt(__t" ++ toString i ++
      ", " ++ pos ++ ") * in.x * in.y\n\x7d\n"
  | .Texels =>
      "\nfunc imageSrc" ++ toString i ++
      "At(pos vec2) vec4 \x7b\n\t// pos is the position of the source texture (= 0th image\x27s texture).\n\t// If pos is in the region, the result is (1, 1). Otherwise, either element is 0.\n\t// With the texel mode, all the source region sizes are the same (#1870).\n\t// As pos is in texels of the 0th texture, always use the 0th image region size.\n\tin := step(__imageSrcRegionOrigins[0], pos) - step(__imageSrcRegionOrigins[0] + __imageSrcRegionSizes[0], pos)\n\treturn __texelAt(__t" ++
      toString i ++ ", " ++ pos ++ ") * in.x * in.y\n\x7d\n"
  | .Unknown _ => ""

/-- Text appended for slot `i` by one loop iteration of `shaderSuffix` once
the position expression `pos` has been determined: accessors, unbounded
fetch, then the bounds-checked fetch variant for the unit. -/
def slotChunkText (unit : shaderir.Unit) (i : Nat) (pos : String) : String :=
  slotAccessorsText i ++ unsafeAtText i pos ++ atText unit i pos

/-- One iteration of the per-slot loop of `shaderSuffix` (source lines 90 to
148): determine the position expression for slot `i` (aborting on an
unrecognized unit for `i >= 1`), then emit the slot text. -/
def slotChunk (unit : shaderir.Unit) (i : Nat) : Except String String := do
  let pos ← posText unit i
  return slotChunkText unit i pos

/-- Loop step: append the text of slot `i` to the accumulated suffix. -/
def suffixStep (unit : shaderir.Unit) (acc : String) (i : Nat) :
    Except String String := do
  let chunk ← slotChunk unit i
  return acc ++ chunk

/-- Trailing text of the synthesized suffix: the projection-matrix uniform
and the synthesized vertex entry point (source lines 150 to 156). -/
def footerText : String :=
  "\nvar __projectionMatrix mat4\n\nfunc __vertex(position vec2, texCoord vec2, color vec4) (vec4, vec2, vec4) \x7b\n\treturn __projectionMatrix * vec4(position, 0, 1), texCoord, color\n\x7d\n"

/-- The preamble synthesizer `shaderSuffix` (source lines 25 to 158).  In the
source the slot count is the package constant `ShaderImageCount`, defined
outside this slice; the spec treats it as the input N, so it is a parameter
here.  The function is a pure function of the slot count and the unit: the Go
body reads nothing but its argument and that constant. -/
def shaderSuffix (shaderImageCount : Nat) (unit : shaderir.Unit) :
    Except String String := do
  let body ← (List.range shaderImageCount).foldlM (suffixStep unit) ""
  return headerText shaderImageCount ++ body ++ footerText

/-- A function of the compiled program, holding the block of statements of
one entry point; a missing block is the nil pointer in the source, `none`
here.  Only the field inspected by `CompileShader` is modelled. -/
structure shaderir.Func where
  Block : Option String
deriving DecidableEq

/-- The intermediate-representation program returned by the external
compiler; only the two fields inspected by `CompileShader` are modelled. -/
structure shaderir.Program where
  VertexFunc : shaderir.Func
  FragmentFunc : shaderir.Func
deriving DecidableEq

/-- The compilation orchestrator `CompileShader` (source lines 160 to 191).
The two external collaborators, `shader.ParseCompilerDirectives` and
`shader.Compile`, live in a package outside this slice and are taken as
parameters, as is the package constant `ShaderImageCount`.  Steps: read the
unit from the compiler directives, synthesize the suffix, concatenate the
user source with the suffix, compile the buffer with the fixed entry-point
names, then require both entry-point blocks to be present. -/
def CompileShader (ShaderImageCount : Nat)
    (ParseCompilerDirectives : String → Except String shaderir.Unit)
    (Compile : String → String → String → Nat → Except String shaderir.Program)
    (src : String) : Except String shaderir.Program := do
  let unit ← ParseCompilerDirectives src
  let suffix ← shaderSuffix ShaderImageCount unit
  let buf := src ++ suffix
  let vert := "__vertex"
  let frag := "Fragment"
  let ir ← Compile buf vert frag ShaderImageCount
  if ir.VertexFunc.Block = none then
    Except.error ("graphics: vertex shader entry point \x27" ++ vert ++ "\x27 is missing")
  else if ir.FragmentFunc.Block = none then
    Except.error ("graphics: fragment shader entry point \x27" ++ frag ++ "\x27 is missing")
  else
    Except.ok ir

/-- The message of the missing-vertex-entry-point error of `CompileShader`
(source line 184). -/
def vertexMissingMsg : String :=
  "graphics: vertex shader entry point \x27" ++ "__vertex" ++ "\x27 is missing"

/-- The message of the missing-fragment-entry-point error of `CompileShader`
(source line 187). -/
def fragmentMissingMsg : String :=
  "graphics: fragment shader entry point \x27" ++ "Fragment" ++ "\x27 is missing"

/-- A two-component vector of the shading sublanguage, with rational
components. -/
@[ext]
structure Vec2 where
  x : ℚ
  y : ℚ
deriving DecidableEq

/-- A four-component vector of the shading sublanguage (a texel sample),
with rational components. -/
@[ext]
structure Vec4 where
  x : ℚ
  y : ℚ
  z : ℚ
  w : ℚ
deriving DecidableEq

instance : Add Vec2 := ⟨fun a b => ⟨a.x + b.x, a.y + b.y⟩⟩

instance : Sub Vec2 := ⟨fun a b => ⟨a.x - b.x, a.y - b.y⟩⟩

instance : Mul Vec2 := ⟨fun a b => ⟨a.x * b.x, a.y * b.y⟩⟩

instance : Div Vec2 := ⟨fun a b => ⟨a.x / b.x, a.y / b.y⟩⟩

/-- Multiplication of a sample by a scalar mask component, as in the emitted
`__texelAt(...) * in.x * in.y`. -/
def Vec4.scale (v : Vec4) (a : ℚ) : Vec4 := ⟨v.x * a, v.y * a, v.z * a, v.w * a⟩

instance : HMul Vec4 ℚ Vec4 := ⟨Vec4.scale⟩

/-- The zero sample. -/
def Vec4.zero : Vec4 := ⟨0, 0, 0, 0⟩

@[simp]
theorem Vec2.add_x (a b : Vec2) : (a + b).x = a.x + b.x := rfl

@[simp]
theorem Vec2.add_y (a b : Vec2) : (a + b).y = a.y + b.y := rfl

@[simp]
theorem Vec2.sub_x (a b : Vec2) : (a - b).x = a.x - b.x := rfl

@[simp]
theorem Vec2.sub_y (a b : Vec2) : (a - b).y = a.y - b.y := rfl

@[simp]
theorem Vec2.mul_x (a b : Vec2) : (a * b).x = a.x * b.x := rfl

@[simp]
theorem Vec2.mul_y (a b : Vec2) : (a * b).y = a.y * b.y := rfl

@[simp]
theorem Vec2.div_x (a b : Vec2) : (a / b).x = a.x / b.x := rfl

@[simp]
theorem Vec2.div_y (a b : Vec2) : (a / b).y = a.y / b.y := rfl

@[simp]
theorem Vec4.scale_eq (v : Vec4) (a : ℚ) :
    v * a = Vec4.mk (v.x * a) (v.y * a) (v.z * a) (v.w * a) := rfl

/-- The `step` builtin of the shading sublanguage, componentwise: the result
component is 0 where the queried component is below the edge component and 1
otherwise. -/
def step (edge v : Vec2) : Vec2 :=
  ⟨if v.x < edge.x then 0 else 1, if v.y < edge.y then 0 else 1⟩

/-- Values of the injected uniform arrays and of the texture sampler while
one synthesized shader runs: region origins, region sizes and texture sizes
per slot, and the underlying `__texelAt(__t i, p)` lookup. -/
structure ShaderEnv where
  imageSrcRegionOrigins : Nat → Vec2
  imageSrcRegionSizes : Nat → Vec2
  imageSrcTextureSizes : Nat → Vec2
  texelAt : Nat → Vec2 → Vec4

/-- Meaning of the Pixels-mode remapping expression emitted at source line
112: `pos - __imageSrcRegionOrigins[0] + __imageSrcRegionOrigins[i]`. -/
def posPixelsSem (env : ShaderEnv) (i : Nat) (pos : Vec2) : Vec2 :=
  pos - env.imageSrcRegionOrigins 0 + env.imageSrcRegionOrigins i

/-- Meaning of the Texels-mode remapping expression emitted at source line
114: `((pos - __imageSrcRegionOrigins[0]) * __imageSrcTextureSizes[0]) /
__imageSrcTextureSizes[i] + __imageSrcRegionOrigins[i]`. -/
def posTexelsSem (env : ShaderEnv) (i : Nat) (pos : Vec2) : Vec2 :=
  (pos - env.imageSrcRegionOrigins 0) * env.imageSrcTextureSizes 0 /
    env.imageSrcTextureSizes i + env.imageSrcRegionOrigins i

/-- Meaning of the position expression spliced into the fetch functions for
slot `i` (source lines 107 to 118): the raw position for slot 0, the
mode-selected remapping for later slots.  For an unrecognized unit no fetch
code is emitted, so the value returned in that branch is never used. -/
def remapSem (env : ShaderEnv) (unit : shaderir.Unit) (i : Nat)
    (pos : Vec2) : Vec2 :=
  if 1 ≤ i then
    match unit with
    | .Pixels => posPixelsSem env i pos
    | .Texels => posTexelsSem env i pos
    | .Unknown _ => pos
  else
    pos

/-- Meaning of the emitted `imageSrc{i}UnsafeAt` (source lines 120 to 125):
sample the texture at the spliced position, with no bounds masking. -/
def imageSrcUnsafeAtSem (env : ShaderEnv) (unit : shaderir.Unit) (i : Nat)
    (pos : Vec2) : Vec4 :=
  env.texelAt i (remapSem env unit i pos)

/-- Meaning of the emitted Pixels-mode `imageSrc{i}At` (source lines 128 to
135): the mask is built from slot 0's origin and slot i's size, and the
sample is taken at the spliced position. -/
def imageSrcAtPixelsSem (env : ShaderEnv) (i : Nat) (pos : Vec2) : Vec4 :=
  let inp := step (env.imageSrcRegionOrigins 0) pos -
    step (env.imageSrcRegionOrigins 0 + env.imageSrcRegionSizes i) pos
  env.texelAt i (remapSem env .Pixels i pos) * inp.x * inp.y

/-- Meaning of the emitted Texels-mode `imageSrc{i}At` (source lines 137 to
146): the mask is built from slot 0's origin and slot 0's size, and the
sample is taken at the spliced position. -/
def imageSrcAtTexelsSem (env : ShaderEnv) (i : Nat) (pos : Vec2) : Vec4 :=
  let inp := step (env.imageSrcRegionOrigins 0) pos -
    step (env.imageSrcRegionOrigins 0 + env.imageSrcRegionSizes 0) pos
  env.texelAt i (remapSem env .Texels i pos) * inp.x * inp.y

/-- The half-open rectangular region with the given origin and size:
the positions the emitted mask `step(o, pos) - step(o + s, pos)` keeps when
the size is nonnegative. -/
def inRegion (o s p : Vec2) : Prop :=
  (o.x ≤ p.x ∧ p.x < o.x + s.x) ∧ (o.y ≤ p.y ∧ p.y < o.y + s.y)

instance (o s p : Vec2) : Decidable (inRegion o s p) := by
  unfold inRegion
  infer_instance

theorem exc_bind_ok {α β : Type} (a : α) (f : α → Except String β) :
    (Except.ok a >>= f) = f a := rfl

theorem exc_bind_err {α β : Type} (e : String) (f : α → Except String β) :
    ((Except.error e : Except String α) >>= f) = Except.error e := rfl

/-- One scalar component of the emitted mask is the indicator of the
half-open interval from the edge to the edge plus a nonnegative size. -/
theorem step_component_indicator (e s p : ℚ) (hs : 0 ≤ s) :
    (if p < e then (0 : ℚ) else 1) - (if p < e + s then (0 : ℚ) else 1) =
      if e ≤ p ∧ p < e + s then 1 else 0 := by
  by_cases h1 : p < e
  · by_cases h2 : p < e + s
    · rw [if_pos h1, if_pos h2, if_neg (fun hc => absurd hc.1 (not_le.mpr h1))]
      ring
    · exact absurd (lt_of_lt_of_le h1 (le_add_of_nonneg_right hs)) h2
  · by_cases h2 : p < e + s
    · rw [if_neg h1, if_pos h2, if_pos ⟨not_lt.mp h1, h2⟩]
      ring
    · rw [if_neg h1, if_neg h2, if_neg (fun hc => h2 hc.2)]
      ring

/-- The emitted mask multiplication keeps the sample unchanged on the
half-open region and zeroes it elsewhere, whenever the size is
nonnegative. -/
theorem masked_sample (v : Vec4) (o s p : Vec2) (hx : 0 ≤ s.x)
    (hy : 0 ≤ s.y) :
    v * (step o p - step (o + s) p).x * (step o p - step (o + s) p).y =
      if inRegion o s p then v else Vec4.zero := by
  have ex : (step o p - step (o + s) p).x =
      if o.x ≤ p.x ∧ p.x < o.x + s.x then 1 else 0 := by
    simp only [step, Vec2.sub_x, Vec2.add_x]
    exact step_component_indicator o.x s.x p.x hx
  have ey : (step o p - step (o + s) p).y =
      if o.y ≤ p.y ∧ p.y < o.y + s.y then 1 else 0 := by
    simp only [step, Vec2.sub_y, Vec2.add_y]
    exact step_component_indicator o.y s.y p.y hy
  rw [ex, ey]
  by_cases cx : o.x ≤ p.x ∧ p.x < o.x + s.x
  · by_cases cy : o.y ≤ p.y ∧ p.y < o.y + s.y
    · rw [if_pos cx, if_pos cy, if_pos (show inRegion o s p from ⟨cx, cy⟩)]
      simp [Vec4.scale_eq]
    · have hni : ¬ inRegion o s p := fun hc => cy hc.2
      rw [if_pos cx, if_neg cy, if_neg hni]
      simp [Vec4.scale_eq, Vec4.zero]
  · have hni : ¬ inRegion o s p := fun hc => cx hc.1
    rw [if_neg cx, if_neg hni]
    simp [Vec4.scale_eq, Vec4.zero]

/-- For an unrecognized unit, the loop body of `shaderSuffix` fails at every
slot index of at least 1 with the unexpected-unit error. -/
theorem suffixStep_unknown_err (m : Int) (acc : String) (i : Nat)
    (hi : 1 ≤ i) :
    suffixStep (.Unknown m) acc i = Except.error (unexpectedUnitMsg m) := by
  simp only [suffixStep, slotChunk, posText, if_pos hi]
  rfl

/-- For an unrecognized unit, the fold of the `shaderSuffix` loop over any
index list holding an index of at least 1 fails with the unexpected-unit
error. -/
theorem suffixFold_unknown_err (m : Int) (l : List Nat) (acc : String)
    (h : ∃ i ∈ l, 1 ≤ i) :
    l.foldlM (suffixStep (.Unknown m)) acc =
      Except.error (unexpectedUnitMsg m) := by
  induction l generalizing acc with
  | nil => simp at h
  | cons a as ih =>
    by_cases ha : 1 ≤ a
    · simp only [List.foldlM, suffixStep_unknown_err m acc a ha]
      rfl
    · have ha0 : a = 0 := Nat.lt_one_iff.mp (Nat.not_le.mp ha)
      subst ha0
      obtain ⟨i, hi, h1⟩ := h
      rcases List.mem_cons.mp hi with h0 | htail
      · exact absurd (h0 ▸ h1) ha
      · simp only [List.foldlM]
        rw [show suffixStep (shaderir.Unit.Unknown m) acc 0 =
          Except.ok (acc ++ slotChunkText (.Unknown m) 0 ("pos")) from rfl]
        rw [exc_bind_ok]
        exact ih _ ⟨i, htail, h1⟩

/-- Region origins of a concrete two-slot configuration: slot 0 at the
texture origin, slot 1 at (10, 10). -/
def originsW : Nat → Vec2 := fun i => if i = 0 then ⟨0, 0⟩ else ⟨10, 10⟩

/-- Region sizes of the concrete configuration: slot 0 is 4 by 4, later
slots are 1 by 1. -/
def sizesA : Nat → Vec2 := fun i => if i = 0 then ⟨4, 4⟩ else ⟨1, 1⟩

/-- Region sizes of a second configuration agreeing with `sizesA` at slot 0
only. -/
def sizesB : Nat → Vec2 := fun i => if i = 0 then ⟨4, 4⟩ else ⟨99, 99⟩

/-- Texture sizes of the concrete configuration: all 1 by 1. -/
def texSizesW : Nat → Vec2 := fun _ => ⟨1, 1⟩

/-- A sampler whose every texel is the all-ones sample. -/
def texelW : Nat → Vec2 → Vec4 := fun _ _ => ⟨1, 1, 1, 1⟩

/-- Concrete environment built from `originsW`, `sizesA`, `texSizesW`,
`texelW`. -/
def envA : ShaderEnv := ⟨originsW, sizesA, texSizesW, texelW⟩

/-- Concrete environment differing from `envA` only in the region sizes of
slots other than 0. -/
def envB : ShaderEnv := ⟨originsW, sizesB, texSizesW, texelW⟩

/-- A directive reader stub that always reports the Pixels unit. -/
def parseStubOk : String → Except String shaderir.Unit :=
  fun _ => .ok .Pixels

/-- A directive reader stub that always fails. -/
def parseStubErr : String → Except String shaderir.Unit :=
  fun _ => .error ("directive: malformed header")

/-- A compiled program with both entry-point blocks present. -/
def progBoth : shaderir.Program := ⟨⟨some ("vblock")⟩, ⟨some ("fblock")⟩⟩

/-- A compiled program missing the vertex entry-point block. -/
def progNoVert : shaderir.Program := ⟨⟨none⟩, ⟨some ("fblock")⟩⟩

/-- A compiled program missing the fragment entry-point block. -/
def progNoFrag : shaderir.Program := ⟨⟨some ("vblock")⟩, ⟨none⟩⟩

/-- A compiler stub returning a program with both blocks. -/
def compileStubBoth :
    String → String → String → Nat → Except String shaderir.Program :=
  fun _ _ _ _ => .ok progBoth

/-- A compiler stub returning a program missing the vertex block. -/
def compileStubNoVert :
    String → String → String → Nat → Except String shaderir.Program :=
  fun _ _ _ _ => .ok progNoVert

/-- A compiler stub returning a program missing the fragment block. -/
def compileStubNoFrag :
    String → String → String → Nat → Except String shaderir.Program :=
  fun _ _ _ _ => .ok progNoFrag

/-- The suffix synthesized for a slot count of 0 (header and footer only). -/
def suffix0 : String := headerText 0 ++ "" ++ footerText

/-- The suffix synthesized for one slot in Pixels mode. -/
def suffix1Pixels : String :=
  headerText 1 ++ ("" ++ slotChunkText .Pixels 0 ("pos")) ++ footerText

/-- Claim C4: whenever the compiler-directive reader fails on the user
source, `CompileShader` returns that reader's error value unchanged.  The
conclusion holds for every compiler collaborator and every slot count, so
the result depends on neither: no synthesis output and no compiler output
can influence it, which is the shallow form of "synthesis is not performed
and the external compiler is not invoked". -/
theorem CompileShader_returns_parse_error
    (n : Nat) (parse : String → Except String shaderir.Unit)
    (compile : String → String → String → Nat → Except String shaderir.Program)
    (src : String) (e : String) (hp : parse src = .error e) :
    CompileShader n parse compile src = .error e := by
  simp only [CompileShader, hp, exc_bind_err]

/-- Witness for C4 at a concrete failing reader, source and compiler. -/
theorem CompileShader_returns_parse_error_witness :
    parseStubErr ("src") = .error ("directive: malformed header") ∧
    CompileShader 4 parseStubErr compileStubBoth ("src") =
      .error ("directive: malformed header") :=
  ⟨rfl, CompileShader_returns_parse_error 4 parseStubErr compileStubBoth
    ("src") ("directive: malformed header") rfl⟩

/-- Claim C6: the synthesized preamble is a pure function of the slot count
and the unit mode; two calls on identical inputs yield byte-identical text.
The Go body reads nothing but its unit argument and the slot-count constant,
so it embeds as the pure function `shaderSuffix`, and purity makes any two
successful results of the same call equal. -/
theorem shaderSuffix_deterministic (n : Nat) (u : shaderir.Unit)
    (s₁ s₂ : String) (h₁ : shaderSuffix n u = .ok s₁)
    (h₂ : shaderSuffix n u = .ok s₂) : s₁ = s₂ := by
  rw [h₁] at h₂
  exact Except.ok.inj h₂

/-- Witness for C6 at one slot in Pixels mode. -/
theorem shaderSuffix_deterministic_witness :
    shaderSuffix 1 .Pixels = .ok suffix1Pixels ∧
    suffix1Pixels = suffix1Pixels :=
  ⟨rfl, shaderSuffix_deterministic 1 .Pixels suffix1Pixels suffix1Pixels
    rfl rfl⟩

/-- Claim C3: when the external compiler returns a program, `CompileShader`
requires both entry-point blocks to be present: a missing vertex block
yields the named vertex error, a present vertex block with a missing
fragment block yields the named fragment error, the two error texts are
distinct and each names its entry point, and in both cases no program is
returned (the error constructor of `Except` carries no program). -/
theorem CompileShader_checks_entry_points
    (n : Nat) (parse : String → Except String shaderir.Unit)
    (compile : String → String → String → Nat → Except String shaderir.Program)
    (src : String) (u : shaderir.Unit) (sfx : String) (ir : shaderir.Program)
    (hp : parse src = .ok u) (hs : shaderSuffix n u = .ok sfx)
    (hc : compile (src ++ sfx) ("__vertex") ("Fragment") n = .ok ir) :
    (ir.VertexFunc.Block = none →
      CompileShader n parse compile src = .error vertexMissingMsg) ∧
    (ir.VertexFunc.Block ≠ none → ir.FragmentFunc.Block = none →
      CompileShader n parse compile src = .error fragmentMissingMsg) ∧
    vertexMissingMsg ≠ fragmentMissingMsg := by
  refine ⟨?_, ?_, by decide⟩
  · intro hv
    simp only [CompileShader, hp, exc_bind_ok, hs, hc, hv, if_pos]
    rfl
  · intro hv hf
    simp only [CompileShader, hp, exc_bind_ok, hs, hc, hv, hf]
    rfl

/-- Witness for C3: with a compiler stub returning a program whose vertex
block is missing, `CompileShader` returns the vertex error. -/
theorem CompileShader_checks_entry_points_witness :
    progNoVert.VertexFunc.Block = none ∧
    CompileShader 0 parseStubOk compileStubNoVert ("src") =
      .error vertexMissingMsg :=
  ⟨rfl, (CompileShader_checks_entry_points 0 parseStubOk compileStubNoVert
    ("src") .Pixels suffix0 progNoVert rfl rfl rfl).1 rfl⟩

/-- Claim C8: once the directives are read and synthesis succeeds,
`CompileShader` calls the external compiler on exactly the user source
followed by the synthesized suffix, with the fixed entry names `__vertex`
and `Fragment` and the slot count; a compiler error is propagated verbatim,
and a compiler program whose two blocks are present is returned unchanged.
The final conjunct shows the result depends on the compiler collaborator
only through its value at that exact argument tuple. -/
theorem CompileShader_compiles_concatenated_buffer
    (n : Nat) (parse : String → Except String shaderir.Unit)
    (compile compile' : String → String → String → Nat → Except String shaderir.Program)
    (src : String) (u : shaderir.Unit) (sfx : String)
    (hp : parse src = .ok u) (hs : shaderSuffix n u = .ok sfx) :
    (∀ e, compile (src ++ sfx) ("__vertex") ("Fragment") n = .error e →
      CompileShader n parse compile src = .error e) ∧
    (∀ ir, compile (src ++ sfx) ("__vertex") ("Fragment") n = .ok ir →
      ir.VertexFunc.Block ≠ none → ir.FragmentFunc.Block ≠ none →
      CompileShader n parse compile src = .ok ir) ∧
    (compile (src ++ sfx) ("__vertex") ("Fragment") n =
        compile' (src ++ sfx) ("__vertex") ("Fragment") n →
      CompileShader n parse compile src = CompileShader n parse compile' src) := by
  refine ⟨?_, ?_, ?_⟩
  · intro e hc
    simp only [CompileShader, hp, exc_bind_ok, hs, hc, exc_bind_err]
  · intro ir hc hv hf
    simp only [CompileShader, hp, exc_bind_ok, hs, hc, hv, hf, exc_bind_ok]
    rfl
  · intro hcc
    simp only [CompileShader, hp, exc_bind_ok, hs, hcc]

/-- Witness for C8: with a compiler stub returning a complete program,
`CompileShader` returns that program unchanged. -/
theorem CompileShader_compiles_concatenated_buffer_witness :
    compileStubBoth (("src") ++ suffix0) ("__vertex") ("Fragment") 0 =
      .ok progBoth ∧
    CompileShader 0 parseStubOk compileStubBoth ("src") = .ok progBoth :=
  ⟨rfl, ((CompileShader_compiles_concatenated_buffer 0 parseStubOk
    compileStubBoth compileStubBoth ("src") .Pixels suffix0 rfl rfl).2.1
    progBoth rfl (by simp [progBoth]) (by simp [progBoth]))⟩

/-- Counterexample to claim C5 as stated: for a slot count of 1 the unit
switch is never reached (it sits under `i >= 1`), so `shaderSuffix` succeeds
on an unrecognized unit value instead of reporting the configuration
error. -/
theorem shaderSuffix_unknown_unit_ok_at_one_slot :
    shaderSuffix 1 (.Unknown 7) =
      .ok (headerText 1 ++ ("" ++ slotChunkText (.Unknown 7) 0 ("pos")) ++
        footerText) ∧
    ¬ ∃ e, shaderSuffix 1 (.Unknown 7) = .error e := by
  refine ⟨rfl, ?_⟩
  rintro ⟨e, he⟩
  rw [show shaderSuffix 1 (shaderir.Unit.Unknown 7) =
    .ok (headerText 1 ++ ("" ++ slotChunkText (.Unknown 7) 0 ("pos")) ++
      footerText) from rfl] at he
  exact Except.noConfusion he

/-- Claim C5 as amended: for every slot count of at least 2, a unit value
other than Pixels and Texels makes `shaderSuffix` abort with the
unexpected-unit configuration error, returning no suffix text (the error
constructor carries no text; the Go function returns the empty string with
the error). -/
theorem shaderSuffix_unknown_unit_errors (n : Nat) (m : Int) (hn : 2 ≤ n) :
    shaderSuffix n (.Unknown m) = .error (unexpectedUnitMsg m) := by
  have h1 : (1 : Nat) ∈ List.range n :=
    List.mem_range.mpr (lt_of_lt_of_le one_lt_two hn)
  simp only [shaderSuffix,
    suffixFold_unknown_err m (List.range n) "" ⟨1, h1, le_refl 1⟩]
  rfl

/-- Witness for the amended C5 at two slots and unit value 7. -/
theorem shaderSuffix_unknown_unit_errors_witness :
    (2 : Nat) ≤ 2 ∧
    shaderSuffix 2 (.Unknown 7) = .error (unexpectedUnitMsg 7) :=
  ⟨le_refl 2, shaderSuffix_unknown_unit_errors 2 7 (le_refl 2)⟩

/-- Claim C9: the accessors synthesized for slot 0 splice the raw queried
position for every unit mode: the emitted position expression is the literal
`pos`, its meaning is the identity on positions, the unbounded fetch for
slot 0 samples at the raw position, and the one-slot suffix contains exactly
the slot-0 text built from that raw position, so no remapping code is
emitted for a slot count of 1. -/
theorem slot_zero_uses_raw_position (u : shaderir.Unit) (env : ShaderEnv)
    (pos : Vec2) :
    posText u 0 = .ok ("pos") ∧
    remapSem env u 0 pos = pos ∧
    imageSrcUnsafeAtSem env u 0 pos = env.texelAt 0 pos ∧
    shaderSuffix 1 u =
      .ok (headerText 1 ++ ("" ++ slotChunkText u 0 ("pos")) ++ footerText) :=
  ⟨rfl, rfl, rfl, rfl⟩

/-- Claim C10: with a single image slot the unit mode is never inspected:
`shaderSuffix` succeeds for every unit value, and for an unrecognized unit
the bounds-checked fetch block of slot 0 is the empty string (the variant
switch has no default branch), so the fetch function is silently omitted
rather than the configuration error reported. -/
theorem shaderSuffix_single_slot_any_unit (u : shaderir.Unit) (m : Int) :
    shaderSuffix 1 u =
      .ok (headerText 1 ++ ("" ++ slotChunkText u 0 ("pos")) ++ footerText) ∧
    atText (.Unknown m) 0 ("pos") = "" ∧
    slotChunkText (.Unknown m) 0 ("pos") =
      slotAccessorsText 0 ++ unsafeAtText 0 ("pos") ++ "" :=
  ⟨rfl, rfl, rfl⟩

/-- Claim C1: for a slot count of at least 2 in Texels mode, the position
spliced into the fetch functions of slot `i >= 1` is the emitted remapping
`((pos - __imageSrcRegionOrigins[0]) * __imageSrcTextureSizes[0]) /
__imageSrcTextureSizes[i] + __imageSrcRegionOrigins[i]`, whose componentwise
meaning is the spec formula `((pos - origin[0]) * texSize[0] / texSize[i]) +
origin[i]`; and the bounds-checked fetch of every such slot reads the region
sizes only at index 0, never at the slot's own index: its value is unchanged
under any alteration of the sizes of slots other than 0. -/
theorem texels_remap_uses_size0 (n i : Nat) (hn : 2 ≤ n) (h1 : 1 ≤ i)
    (hin : i < n) :
    posText .Texels i =
      .ok ("((pos - __imageSrcRegionOrigins[0]) * __imageSrcTextureSizes[0]) / __imageSrcTextureSizes[" ++
        toString i ++ "] + __imageSrcRegionOrigins[" ++ toString i ++ "]") ∧
    (∀ env pos, remapSem env .Texels i pos = Vec2.mk
      ((pos.x - (env.imageSrcRegionOrigins 0).x) *
        (env.imageSrcTextureSizes 0).x / (env.imageSrcTextureSizes i).x +
        (env.imageSrcRegionOrigins i).x)
      ((pos.y - (env.imageSrcRegionOrigins 0).y) *
        (env.imageSrcTextureSizes 0).y / (env.imageSrcTextureSizes i).y +
        (env.imageSrcRegionOrigins i).y)) ∧
    (∀ env env' pos,
      env.imageSrcRegionOrigins = env'.imageSrcRegionOrigins →
      env.imageSrcTextureSizes = env'.imageSrcTextureSizes →
      env.texelAt = env'.texelAt →
      env.imageSrcRegionSizes 0 = env'.imageSrcRegionSizes 0 →
      imageSrcAtTexelsSem env i pos = imageSrcAtTexelsSem env' i pos) := by
  refine ⟨by simp [posText, h1], ?_, ?_⟩
  · intro env pos
    simp only [remapSem, if_pos h1, posTexelsSem]
    rfl
  · intro env env' pos ho ht hx hs
    simp only [imageSrcAtTexelsSem, remapSem, if_pos h1, posTexelsSem,
      ho, ht, hx, hs]

/-- Witness for C1 at two slots: the emitted text for slot 1, and the fetch
value of slot 1 unchanged between `envA` and `envB`, which differ in the
region size of slot 1 (1 by 1 against 99 by 99). -/
theorem texels_remap_uses_size0_witness :
    envA.imageSrcRegionSizes 1 ≠ envB.imageSrcRegionSizes 1 ∧
    posText .Texels 1 =
      .ok ("((pos - __imageSrcRegionOrigins[0]) * __imageSrcTextureSizes[0]) / __imageSrcTextureSizes[" ++
        toString 1 ++ "] + __imageSrcRegionOrigins[" ++ toString 1 ++ "]") ∧
    imageSrcAtTexelsSem envA 1 (Vec2.mk 2 2) =
      imageSrcAtTexelsSem envB 1 (Vec2.mk 2 2) :=
  ⟨by norm_num [envA, envB, sizesA, sizesB],
   (texels_remap_uses_size0 2 1 (le_refl 2) (le_refl 1) (Nat.lt_succ_self 1)).1,
   (texels_remap_uses_size0 2 1 (le_refl 2) (le_refl 1)
     (Nat.lt_succ_self 1)).2.2 envA envB (Vec2.mk 2 2) rfl rfl rfl rfl⟩

/-- Claim C2: for a slot count of at least 2 in Pixels mode, the position
spliced into the fetch functions of slot `i >= 1` is the emitted
`pos - __imageSrcRegionOrigins[0] + __imageSrcRegionOrigins[i]`, whose
componentwise meaning is exactly `pos - origin[0] + origin[i]`, and which is
a pure translation: adding the fixed offset `origin[i] - origin[0]`, with no
scaling factor. -/
theorem pixels_remap_pure_translation (n i : Nat) (hn : 2 ≤ n) (h1 : 1 ≤ i)
    (hin : i < n) :
    posText .Pixels i =
      .ok ("pos - __imageSrcRegionOrigins[0] + __imageSrcRegionOrigins[" ++
        toString i ++ "]") ∧
    (∀ env pos, remapSem env .Pixels i pos = Vec2.mk
      (pos.x - (env.imageSrcRegionOrigins 0).x +
        (env.imageSrcRegionOrigins i).x)
      (pos.y - (env.imageSrcRegionOrigins 0).y +
        (env.imageSrcRegionOrigins i).y)) ∧
    (∀ env, ∀ pos, remapSem env .Pixels i pos =
      pos + (env.imageSrcRegionOrigins i - env.imageSrcRegionOrigins 0)) := by
  refine ⟨by simp [posText, h1], ?_, ?_⟩
  · intro env pos
    simp only [remapSem, if_pos h1, posPixelsSem]
    rfl
  · intro env pos
    simp only [remapSem, if_pos h1, posPixelsSem]
    ext
    · simp only [Vec2.add_x, Vec2.sub_x]
      ring
    · simp only [Vec2.add_y, Vec2.sub_y]
      ring

/-- Witness for C2 at two slots: the emitted text for slot 1, and the
translation property evaluated in `envA` at position (2, 2). -/
theorem pixels_remap_pure_translation_witness :
    posText .Pixels 1 =
      .ok ("pos - __imageSrcRegionOrigins[0] + __imageSrcRegionOrigins[" ++
        toString 1 ++ "]") ∧
    remapSem envA .Pixels 1 (Vec2.mk 2 2) =
      Vec2.mk 2 2 + (envA.imageSrcRegionOrigins 1 -
        envA.imageSrcRegionOrigins 0) :=
  ⟨(pixels_remap_pure_translation 2 1 (le_refl 2) (le_refl 1)
      (Nat.lt_succ_self 1)).1,
   (pixels_remap_pure_translation 2 1 (le_refl 2) (le_refl 1)
      (Nat.lt_succ_self 1)).2.2 envA (Vec2.mk 2 2)⟩

/-- Counterexample to claim C7 as stated: in Texels mode with the concrete
environment `envA`, the queried position (2, 2) lies outside slot 1's
declared region (origin (10, 10), size (1, 1)) — and so does its remapped
image (12, 12) — yet the bounds-checked fetch returns the all-ones texel
rather than the zero sample, because the emitted check compares the raw
position against slot 0's origin and, in Texels mode, slot 0's size. -/
theorem imageSrcAt_region_counterexample :
    ¬ inRegion (envA.imageSrcRegionOrigins 1) (envA.imageSrcRegionSizes 1)
      (Vec2.mk 2 2) ∧
    ¬ inRegion (envA.imageSrcRegionOrigins 1) (envA.imageSrcRegionSizes 1)
      (remapSem envA .Texels 1 (Vec2.mk 2 2)) ∧
    imageSrcAtTexelsSem envA 1 (Vec2.mk 2 2) = Vec4.mk 1 1 1 1 ∧
    Vec4.mk 1 1 1 1 ≠ Vec4.zero := by
  refine ⟨?_, ?_, ?_, ?_⟩
  · norm_num [inRegion, envA, originsW, sizesA]
  · norm_num [inRegion, envA, originsW, sizesA, texSizesW, remapSem,
      posTexelsSem]
  · norm_num [imageSrcAtTexelsSem, remapSem, posTexelsSem, envA, originsW,
      sizesA, texSizesW, texelW, step, Vec4.scale_eq]
  · norm_num [Vec4.zero]

/-- Claim C7 as amended: for nonnegative region sizes, the bounds-checked
fetch of slot `i` zeroes the sample exactly when the raw queried position
(in slot 0's coordinate frame) lies outside the half-open region whose
origin is slot 0's origin and whose size is slot i's size in Pixels mode and
slot 0's size in Texels mode; otherwise it returns the texel at the spliced
(remapped) position unchanged. -/
theorem imageSrcAt_zeroing_characterization (env : ShaderEnv) (i : Nat)
    (pos : Vec2) :
    (0 ≤ (env.imageSrcRegionSizes i).x → 0 ≤ (env.imageSrcRegionSizes i).y →
      imageSrcAtPixelsSem env i pos =
        if inRegion (env.imageSrcRegionOrigins 0) (env.imageSrcRegionSizes i)
          pos
        then env.texelAt i (remapSem env .Pixels i pos) else Vec4.zero) ∧
    (0 ≤ (env.imageSrcRegionSizes 0).x → 0 ≤ (env.imageSrcRegionSizes 0).y →
      imageSrcAtTexelsSem env i pos =
        if inRegion (env.imageSrcRegionOrigins 0) (env.imageSrcRegionSizes 0)
          pos
        then env.texelAt i (remapSem env .Texels i pos) else Vec4.zero) := by
  constructor
  · intro hx hy
    simp only [imageSrcAtPixelsSem]
    exact masked_sample _ _ _ _ hx hy
  · intro hx hy
    simp only [imageSrcAtTexelsSem]
    exact masked_sample _ _ _ _ hx hy

/-- Witness for the amended C7 in `envA` at slot 1 and position (2, 2): the
sizes are nonnegative, the position is inside the checked region (slot 0's
origin and size), and the fetch indeed returns the texel at the remapped
position. -/
theorem imageSrcAt_zeroing_characterization_witness :
    (0 : ℚ) ≤ (envA.imageSrcRegionSizes 0).x ∧
    imageSrcAtTexelsSem envA 1 (Vec2.mk 2 2) =
      (if inRegion (envA.imageSrcRegionOrigins 0)
          (envA.imageSrcRegionSizes 0) (Vec2.mk 2 2)
       then envA.texelAt 1 (remapSem envA .Texels 1 (Vec2.mk 2 2))
       else Vec4.zero) :=
  ⟨by norm_num [envA, sizesA],
   (imageSrcAt_zeroing_characterization envA 1 (Vec2.mk 2 2)).2
     (by norm_num [envA, sizesA]) (by norm_num [envA, sizesA])⟩

end graphics
